import Mathlib

/-!
Shallow embedding of the wander-albay itinerary application logic:
the preference scorer, top-K auto-selector, selection-set toggle and
itinerary creation handler from `src/components/CreateItineraryModal.tsx`,
and the verification-email edge function from
`supabase/functions/send-verification-email/index.ts`.

JavaScript strings are `String`, JS numbers are `ℚ` (all arithmetic in the
sources is exact: integer additions and one halving), `Math.random()` and
the network responses are passed in as explicit oracle parameters, and the
JS `Set` of selected spot ids is a `Finset String` (only membership,
insertion, deletion and size are used by the source).
-/

/-- JS `String.prototype.toLowerCase` (the sources only rely on its ASCII
behaviour): lower-case every character. -/
def jsToLower (s : String) : String :=
  ⟨s.data.map Char.toLower⟩

/-- JS `String.prototype.trim`: strip leading and trailing whitespace. -/
def jsTrim (s : String) : String :=
  ⟨((s.data.dropWhile Char.isWhitespace).reverse.dropWhile
      Char.isWhitespace).reverse⟩

/-- JS `Array.prototype.includes` / exact membership is `List.contains`;
this is JS `String.prototype.includes`: `charsStart needle hay` tests
whether `needle` begins `hay`. -/
def charsStart : List Char → List Char → Bool
  | [], _ => true
  | _ :: _, [] => false
  | a :: as, b :: bs => a == b && charsStart as bs

/-- `charsHaveSub needle hay` tests whether `needle` occurs contiguously
inside `hay` (JS `hay.includes(needle)` on the underlying characters). -/
def charsHaveSub (needle : List Char) : List Char → Bool
  | [] => charsStart needle []
  | c :: t => charsStart needle (c :: t) || charsHaveSub needle t

/-- JS `hay.includes(needle)`: case-sensitive contiguous substring test. -/
def containsSubstr (hay needle : String) : Bool :=
  charsHaveSub needle.data hay.data

/-- The `TouristSpot` row interface from `CreateItineraryModal.tsx`
(lines 21-36).  Nullable columns are `Option`; `string[]` columns are
`List String`; numeric columns are `ℚ`. -/
structure TouristSpot where
  id : String
  name : String
  description : Option String
  location : String
  municipality : Option String
  category : List String
  image_url : Option String
  latitude : Option ℚ
  longitude : Option ℚ
  rating : Option ℚ
  budget_level : Option String
  scenery_type : List String
  spot_type : List String
  is_hidden_gem : Bool
deriving DecidableEq

/-- The loosely-typed user-preference record read by `scoreSpot`.
A field is `none` (resp. `false` for the flag) exactly when the
corresponding JS field is falsy, in which case the JS truthiness guard
skips that scoring contribution. -/
structure UserPreferences where
  preferredActivities : Option (List String)
  budgetRange : Option String
  sceneryType : Option (List String)
  hiddenGems : Bool
deriving DecidableEq

/-- `scoreSpot` (CreateItineraryModal.tsx lines 87-126).  `userPreferences`
is `none` when the component state is null/undefined, in which case the
source returns `Math.random()`, modelled by the oracle argument `rand`. -/
def scoreSpot (userPreferences : Option UserPreferences) (rand : ℚ)
    (spot : TouristSpot) : ℚ :=
  match userPreferences with
  | none => rand
  | some prefs =>
    let activityScore : ℚ :=
      match prefs.preferredActivities with
      | some preferredActivities =>
        3 * ((preferredActivities.filter (fun activity =>
            spot.category.any (fun cat =>
              containsSubstr (jsToLower cat) (jsToLower activity)))).length : ℚ)
      | none => 0
    let budgetScore : ℚ :=
      match prefs.budgetRange, spot.budget_level with
      | some budgetRange, some budget_level =>
        if jsToLower budget_level = jsToLower budgetRange then 2 else 0
      | _, _ => 0
    let sceneryScore : ℚ :=
      match prefs.sceneryType with
      | some sceneryType =>
        2 * ((spot.scenery_type.filter (fun scenery =>
            sceneryType.contains scenery)).length : ℚ)
      | none => 0
    let hiddenGemScore : ℚ :=
      if prefs.hiddenGems && spot.is_hidden_gem then 2 else 0
    let ratingScore : ℚ :=
      match spot.rating with
      | some rating => if rating ≠ 0 then rating / 2 else 0
      | none => 0
    activityScore + budgetScore + sceneryScore + hiddenGemScore + ratingScore

/-- The scored pair list built by `handleAutoSelect` (lines 129-130):
`spots.map((spot) => ({ spot, score: scoreSpot(spot) }))`.  `Math.random()`
yields a fresh value per call, so the oracle is indexed by list position. -/
def scoredList (userPreferences : Option UserPreferences)
    (randOracle : Nat → ℚ) (spots : List TouristSpot) :
    List (TouristSpot × ℚ) :=
  spots.enum.map (fun p => (p.2, scoreSpot userPreferences (randOracle p.1) p.2))

/-- `.sort((a, b) => b.score - a.score)` (line 131): a stable sort that
puts higher scores first.  JS `Array.prototype.sort` is stable, as is
`List.mergeSort`. -/
def sortedScoredList (userPreferences : Option UserPreferences)
    (randOracle : Nat → ℚ) (spots : List TouristSpot) :
    List (TouristSpot × ℚ) :=
  (scoredList userPreferences randOracle spots).mergeSort
    (fun a b => decide (b.2 ≤ a.2))

/-- `handleAutoSelect` (lines 128-137): sort descending by score, take the
first 8, keep the ids. -/
def handleAutoSelect (userPreferences : Option UserPreferences)
    (randOracle : Nat → ℚ) (spots : List TouristSpot) : List String :=
  ((sortedScoredList userPreferences randOracle spots).take 8).map
    (fun item => item.1.id)

/-- `toggleSpot` (lines 139-147): delete the id if present, add it
otherwise. -/
def toggleSpot (spotId : String) (selectedSpots : Finset String) :
    Finset String :=
  if spotId ∈ selectedSpots then selectedSpots.erase spotId
  else insert spotId selectedSpots

/-- Insertion into a JS `Set`, element by element: `seen` holds the
elements already inserted; an element already seen is skipped. -/
def dedupSeen : List String → List String → List String
  | _, [] => []
  | seen, c :: rest =>
    if c ∈ seen then dedupSeen seen rest
    else c :: dedupSeen (c :: seen) rest

/-- `[...new Set(xs)]`: keep the first occurrence of each element, in
order. -/
def dedupKeepFirst (l : List String) : List String :=
  dedupSeen [] l

/-- The row inserted into the `itineraries` table (lines 164-169). -/
structure ItineraryRow where
  user_id : String
  name : String
  spots : List TouristSpot
  selected_categories : List String
deriving DecidableEq

/-- The component state touched by `handleCreateItinerary`: the name input
and the selected-spot id set. -/
structure ModalState where
  itineraryName : String
  selectedSpots : Finset String
deriving DecidableEq

/-- Outcome of one `handleCreateItinerary` run: either a validation
notification with no insert issued, or an insert of `row` that the store
rejected, or an insert of `row` that succeeded. -/
inductive CreateOutcome where
  | noInsert (message : String)
  | insertFailed (row : ItineraryRow)
  | insertSucceeded (row : ItineraryRow)
deriving DecidableEq

/-- The row sent over the network by an outcome, if any. -/
def CreateOutcome.insertedRow : CreateOutcome → Option ItineraryRow
  | .noInsert _ => none
  | .insertFailed row => some row
  | .insertSucceeded row => some row

/-- `handleCreateItinerary` (lines 149-182).  `insertErrored` is the
oracle for the external store's response to the single insert.  Returns
the outcome together with the component state afterwards. -/
def handleCreateItinerary (userId : String) (spots : List TouristSpot)
    (st : ModalState) (insertErrored : Bool) : CreateOutcome × ModalState :=
  if jsTrim st.itineraryName = "" then
    (.noInsert "Please enter an itinerary name", st)
  else if st.selectedSpots.card = 0 then
    (.noInsert "Please select at least one spot", st)
  else
    let selectedSpotData :=
      spots.filter (fun spot => spot.id ∈ st.selectedSpots)
    let row : ItineraryRow :=
      { user_id := userId
        name := st.itineraryName
        spots := selectedSpotData
        selected_categories :=
          dedupKeepFirst (selectedSpotData.flatMap (fun s => s.category)) }
    if insertErrored then (.insertFailed row, st)
    else (.insertSucceeded row, { itineraryName := "", selectedSpots := ∅ })

/-- The parsed webhook payload (index.ts lines 32-43). -/
structure EmailPayload where
  email : String
  token : String
  token_hash : String
  redirect_to : String
  email_action_type : String
deriving DecidableEq

/-- Result of `JSON.parse(payload)` plus destructuring: either the parsed
fields, or the message of the exception it threw. -/
inductive RequestPayload where
  | parsed (p : EmailPayload)
  | malformed (message : String)
deriving DecidableEq

/-- An incoming request, as far as the handler observes it:  the HTTP
method, whether `wh.verify(payload, headers)` succeeds (it throws
otherwise), and the body parse result. -/
structure EmailRequest where
  method : String
  signatureValid : Bool
  payload : RequestPayload
deriving DecidableEq

/-- Oracle for `resend.emails.send`: the provider's send-result
(JSON-stringified) when the await returns, or the message of the
exception it threw. -/
inductive SendOutcome where
  | ok (respJson : String)
  | thrown (message : String)
deriving DecidableEq

/-- Response body shapes produced by the handler: `Response(null)` for the
pre-flight, `JSON.stringify(emailResponse)` on success,
`JSON.stringify({ error: error.message })` on failure. -/
inductive Body where
  | empty
  | providerJson (j : String)
  | errorJson (message : String)
deriving DecidableEq

/-- The pieces of the `Response` the handler constructs. -/
structure HttpResponse where
  status : Nat
  headers : List (String × String)
  body : Body
deriving DecidableEq

/-- The argument of the single `resend.emails.send` call
(index.ts lines 110-115). -/
structure EmailMessage where
  fromAddr : String
  toAddrs : List String
  subject : String
  html : String
deriving DecidableEq

/-- `corsHeaders` (index.ts lines 8-11). -/
def corsHeaders : List (String × String) :=
  [("Access-Control-Allow-Origin", "*"),
   ("Access-Control-Allow-Headers",
    "authorization, x-client-info, apikey, content-type")]

/-- `{ "Content-Type": "application/json", ...corsHeaders }`. -/
def jsonCorsHeaders : List (String × String) :=
  ("Content-Type", "application/json") :: corsHeaders

/-- The `emailHtml` template (index.ts lines 48-108) up to the
`${verificationLink}` interpolation.  Braces and apostrophes of the
literal are written `\x7b`, `\x7d`, `\x27`. -/
def emailHtmlPart1 : String :=
  "
      <!DOCTYPE html>
      <html>
        <head>
          <meta charset=\"utf-8\">
          <meta name=\"viewport\" content=\"width=device-width, initial-scale=1.0\">
          <style>
            body \x7b font-family: -apple-system, BlinkMacSystemFont, \x27Segoe UI\x27, Roboto, \x27Helvetica Neue\x27, Arial, sans-serif; margin: 0; padding: 0; background-color: #f6f9fc; \x7d
            .container \x7b max-width: 600px; margin: 0 auto; background-color: #ffffff; \x7d
            .header \x7b background: linear-gradient(135deg, #667eea 0%, #764ba2 100%); padding: 40px 20px; text-align: center; \x7d
            .logo \x7b width: 60px; height: 60px; background-color: white; border-radius: 50%; margin: 0 auto 20px; display: flex; align-items: center; justify-content: center; font-size: 30px; \x7d
            .header-title \x7b color: white; font-size: 28px; font-weight: bold; margin: 0; \x7d
            .content \x7b padding: 40px 30px; \x7d
            .welcome \x7b font-size: 20px; font-weight: 600; color: #1a1a1a; margin-bottom: 20px; \x7d
            .message \x7b font-size: 16px; color: #4a5568; line-height: 1.6; margin-bottom: 30px; \x7d
            .button \x7b display: inline-block; background: linear-gradient(135deg, #667eea 0%, #764ba2 100%); color: white; text-decoration: none; padding: 14px 40px; border-radius: 8px; font-weight: 600; font-size: 16px; transition: transform 0.2s; \x7d
            .button:hover \x7b transform: translateY(-2px); \x7d
            .code-section \x7b background-color: #f7fafc; border: 1px solid #e2e8f0; border-radius: 8px; padding: 20px; margin: 30px 0; text-align: center; \x7d
            .code \x7b font-family: \x27Courier New\x27, monospace; font-size: 24px; font-weight: bold; color: #2d3748; letter-spacing: 4px; \x7d
            .footer \x7b padding: 30px; text-align: center; color: #718096; font-size: 14px; border-top: 1px solid #e2e8f0; \x7d
            .divider \x7b text-align: center; margin: 30px 0; color: #cbd5e0; \x7d
          </style>
        </head>
        <body>
          <div class=\"container\">
            <div class=\"header\">
              <div class=\"logo\">🌍</div>
              <h1 class=\"header-title\">Wanderer</h1>
            </div>
            
            <div class=\"content\">
              <h2 class=\"welcome\">Welcome to Wanderer!</h2>
              <p class=\"message\">
                Thank you for signing up! We\x27re excited to have you join our community of explorers. 
                To get started, please verify your email address by clicking the button below.
              </p>
              
              <div style=\"text-align: center; margin: 30px 0;\">
                <a href=\""

/-- The template between `${verificationLink}` and `${token}`. -/
def emailHtmlPart2 : String :=
  "\" class=\"button\">Verify Email Address</a>
              </div>
              
              <div class=\"divider\">───── OR ─────</div>
              
              <div class=\"code-section\">
                <p style=\"margin: 0 0 10px 0; color: #4a5568; font-size: 14px;\">Enter this code:</p>
                <div class=\"code\">"

/-- The template after `${token}`. -/
def emailHtmlPart3 : String :=
  "</div>
              </div>
              
              <p class=\"message\" style=\"font-size: 14px; margin-top: 30px;\">
                If you didn\x27t create an account with Wanderer, you can safely ignore this email.
              </p>
            </div>
            
            <div class=\"footer\">
              <p>© 2025 Wanderer. All rights reserved.</p>
              <p style=\"margin-top: 10px;\">Your adventure companion for exploring the world.</p>
            </div>
          </div>
        </body>
      </html>
    "

/-- `emailHtml` (index.ts lines 48-108): the rendered message body. -/
def emailHtml (verificationLink token : String) : String :=
  emailHtmlPart1 ++ verificationLink ++ emailHtmlPart2 ++ token ++ emailHtmlPart3

/-- `verificationLink` (index.ts line 46). -/
def verificationLink (supabaseUrl : String) (p : EmailPayload) : String :=
  supabaseUrl ++ "/auth/v1/verify?token=" ++ p.token_hash ++ "&type=" ++
    p.email_action_type ++ "&redirect_to=" ++ p.redirect_to

/-- What one handler run produced: the HTTP response, the `console`
log/error lines (identified by their fixed first argument), and the
`resend.emails.send` call if one was made. -/
structure HandlerResult where
  response : HttpResponse
  logs : List String
  sent : Option EmailMessage
deriving DecidableEq

/-- The edge-function `handler` (index.ts lines 13-130).  `hookSecret` is
`none` when the env var is unset/empty (JS falsy), `supabaseUrl` is the
`SUPABASE_URL` env var, and `sendResult` is the provider oracle. -/
def handler (hookSecret : Option String) (supabaseUrl : String)
    (req : EmailRequest) (sendResult : SendOutcome) : HandlerResult :=
  if req.method = "OPTIONS" then
    { response := { status := 200, headers := corsHeaders, body := .empty }
      logs := []
      sent := none }
  else
    let verifyLogs : List String :=
      match hookSecret with
      | some _ =>
        if req.signatureValid then [] else ["Webhook verification failed:"]
      | none => []
    match req.payload with
    | .malformed message =>
      { response :=
          { status := 500, headers := jsonCorsHeaders, body := .errorJson message }
        logs := verifyLogs ++ ["Error sending verification email:"]
        sent := none }
    | .parsed p =>
      let message : EmailMessage :=
        { fromAddr := "Wanderer <onboarding@resend.dev>"
          toAddrs := [p.email]
          subject := "Verify your Wanderer account"
          html := emailHtml (verificationLink supabaseUrl p) p.token }
      match sendResult with
      | .ok j =>
        { response :=
            { status := 200, headers := jsonCorsHeaders, body := .providerJson j }
          logs := verifyLogs ++ ["Verification email sent successfully:"]
          sent := some message }
      | .thrown m =>
        { response :=
            { status := 500, headers := jsonCorsHeaders, body := .errorJson m }
          logs := verifyLogs ++ ["Error sending verification email:"]
          sent := some message }

theorem charsStart_self_append (n t : List Char) :
    charsStart n (n ++ t) = true := by
  induction n with
  | nil => simp [charsStart]
  | cons a as ih => simp [charsStart, ih]

theorem charsHaveSub_of_charsStart (n hay : List Char)
    (h : charsStart n hay = true) : charsHaveSub n hay = true := by
  cases hay <;> simp [charsHaveSub, h]

theorem charsHaveSub_of_append (a n b : List Char) :
    charsHaveSub n (a ++ (n ++ b)) = true := by
  induction a with
  | nil => exact charsHaveSub_of_charsStart _ _ (charsStart_self_append n b)
  | cons x xs ih => simp [charsHaveSub, ih]

theorem mem_dedupSeen {a : String} (l seen : List String) :
    a ∈ dedupSeen seen l ↔ a ∈ l ∧ a ∉ seen := by
  induction l generalizing seen with
  | nil => simp [dedupSeen]
  | cons c rest ih =>
    rw [dedupSeen]
    by_cases hc : c ∈ seen
    · rw [if_pos hc, ih]
      constructor
      · exact fun ⟨h1, h2⟩ => ⟨List.mem_cons_of_mem c h1, h2⟩
      · rintro ⟨h1, h2⟩
        rcases List.mem_cons.mp h1 with rfl | h1
        · exact absurd hc h2
        · exact ⟨h1, h2⟩
    · rw [if_neg hc]
      simp only [List.mem_cons, ih]
      constructor
      · rintro (rfl | ⟨h1, h2⟩)
        · exact ⟨Or.inl rfl, hc⟩
        · exact ⟨Or.inr h1, fun hs => h2 (Or.inr hs)⟩
      · rintro ⟨rfl | h1, h2⟩
        · exact Or.inl rfl
        · by_cases hac : a = c
          · exact Or.inl hac
          · exact Or.inr ⟨h1, by simp [hac, h2]⟩

theorem nodup_dedupSeen (l seen : List String) :
    (dedupSeen seen l).Nodup := by
  induction l generalizing seen with
  | nil => simp [dedupSeen]
  | cons c rest ih =>
    rw [dedupSeen]
    by_cases hc : c ∈ seen
    · rw [if_pos hc]
      exact ih seen
    · rw [if_neg hc]
      refine List.nodup_cons.mpr ⟨fun hmem => ?_, ih (c :: seen)⟩
      exact ((mem_dedupSeen rest (c :: seen)).mp hmem).2 (List.mem_cons_self c seen)

theorem mem_dedupKeepFirst {a : String} {l : List String} :
    a ∈ dedupKeepFirst l ↔ a ∈ l := by
  rw [dedupKeepFirst, mem_dedupSeen]
  simp

theorem nodup_dedupKeepFirst (l : List String) :
    (dedupKeepFirst l).Nodup :=
  nodup_dedupSeen l []

/-- A tourist spot with every optional field empty, base for concrete
instances. -/
def sampleSpot : TouristSpot :=
  { id := "spot-0", name := "Spot", description := none, location := "Albay",
    municipality := none, category := [], image_url := none, latitude := none,
    longitude := none, rating := none, budget_level := none,
    scenery_type := [], spot_type := [], is_hidden_gem := false }

/-- A preference record that is present but has every recognized field
missing (all JS-falsy). -/
def emptyPreferences : UserPreferences :=
  { preferredActivities := none, budgetRange := none, sceneryType := none,
    hiddenGems := false }

/-- Follows the words of the claim (not the source), for comparison with
`scoreSpot`: the total number of activity-to-category hits, where a hit is
any pair (preferred activity, spot category tag) such that the category
tag case-insensitively contains the activity string as a substring. -/
def claimedActivityPairHits (preferredActivities : List String)
    (spot : TouristSpot) : Nat :=
  (preferredActivities.map (fun activity =>
    (spot.category.filter (fun cat =>
      containsSubstr (jsToLower cat) (jsToLower activity))).length)).sum

/-- Preference record whose only recognized field is the single preferred
activity "hik". -/
def prefsOnlyHik : UserPreferences :=
  { emptyPreferences with preferredActivities := some ["hik"] }

/-- A spot with two category tags that both contain "hik". -/
def spotTwoHikTags : TouristSpot :=
  { sampleSpot with category := ["Hiking", "Hikes"] }

/-- Claim C1 as stated is false: with preferred activity list `["hik"]`
and category tags `["Hiking", "Hikes"]` there are two activity-to-category
pair hits, so the claim predicts an activity component of 6, but the code
counts matching activities (not pairs) and scores 3. -/
theorem C1_counterexample :
    claimedActivityPairHits ["hik"] spotTwoHikTags = 2
    ∧ scoreSpot (some prefsOnlyHik) 0 spotTwoHikTags = 3
    ∧ scoreSpot (some prefsOnlyHik) 0 spotTwoHikTags
        ≠ 3 * (claimedActivityPairHits ["hik"] spotTwoHikTags : ℚ) := by
  refine ⟨by decide, ?_, ?_⟩ <;>
    simp +decide [scoreSpot, prefsOnlyHik, emptyPreferences, spotTwoHikTags,
      sampleSpot, claimedActivityPairHits]

/-- Claim C1 (amended): the activity component of the score is 3 times the
number of preferred activities that case-insensitively match at least one
of the spot's category tags (each activity counted once, however many tags
contain it), and, holding all other factors fixed, each additional
matching preferred activity increases the score by exactly 3. -/
theorem scoreSpot_activity_component (p : UserPreferences)
    (spot : TouristSpot) (acts : List String) (a : String) (r : ℚ)
    (hp : p.preferredActivities = some acts)
    (ha : spot.category.any
      (fun cat => containsSubstr (jsToLower cat) (jsToLower a)) = true) :
    scoreSpot (some p) r spot
      = 3 * ((acts.filter (fun activity => spot.category.any
            (fun cat => containsSubstr (jsToLower cat) (jsToLower activity)))).length : ℚ)
        + scoreSpot (some { p with preferredActivities := none }) r spot
    ∧ scoreSpot (some { p with preferredActivities := some (a :: acts) }) r spot
        = scoreSpot (some p) r spot + 3 := by
  constructor
  · simp only [scoreSpot, hp]
    ring
  · simp only [scoreSpot, hp, List.filter_cons, ha, if_pos, List.length_cons]
    push_cast
    ring

/-- Witness for `scoreSpot_activity_component` at a concrete input. -/
theorem scoreSpot_activity_component_witness :
    prefsOnlyHik.preferredActivities = some ["hik"]
    ∧ spotTwoHikTags.category.any
        (fun cat => containsSubstr (jsToLower cat) (jsToLower "hikes")) = true
    ∧ (scoreSpot (some prefsOnlyHik) 0 spotTwoHikTags
        = 3 * ((["hik"].filter (fun activity => spotTwoHikTags.category.any
              (fun cat => containsSubstr (jsToLower cat) (jsToLower activity)))).length : ℚ)
          + scoreSpot (some { prefsOnlyHik with preferredActivities := none })
              0 spotTwoHikTags
      ∧ scoreSpot
          (some { prefsOnlyHik with preferredActivities := some ("hikes" :: ["hik"]) })
          0 spotTwoHikTags
        = scoreSpot (some prefsOnlyHik) 0 spotTwoHikTags + 3) :=
  ⟨rfl, by decide,
    scoreSpot_activity_component prefsOnlyHik spotTwoHikTags ["hik"] "hikes" 0
      rfl (by decide)⟩

/-- Claim C2 as stated is false: a preference record that is *present* but
missing every recognized field does not take the random fallback branch,
so the rating boost still applies; with rating 4 the score is 2, which is
not in [0, 1). -/
theorem C2_counterexample :
    scoreSpot (some emptyPreferences) 0 { sampleSpot with rating := some 4 } = 2
    ∧ ¬ (scoreSpot (some emptyPreferences) 0
          { sampleSpot with rating := some 4 } < 1) := by
  norm_num [scoreSpot, emptyPreferences, sampleSpot]

/-- Claim C2 (amended): when preferences is absent (null), `scoreSpot`
returns the random fallback value, hence a value in [0, 1) — an explicit
fallback, not an error; a preference record that is present but missing
every recognized field contributes no preference signal, so the score
equals the rating boost `rating / 2` (0 when the rating is absent or
zero), which need not lie in [0, 1). -/
theorem scoreSpot_no_signal (spot : TouristSpot) (r : ℚ) (p : UserPreferences)
    (h0 : 0 ≤ r) (h1 : r < 1)
    (hpa : p.preferredActivities = none) (hbr : p.budgetRange = none)
    (hst : p.sceneryType = none) (hhg : p.hiddenGems = false) :
    scoreSpot none r spot = r
    ∧ 0 ≤ scoreSpot none r spot ∧ scoreSpot none r spot < 1
    ∧ scoreSpot (some p) r spot
        = (match spot.rating with
           | some rating => if rating ≠ 0 then rating / 2 else 0
           | none => 0) := by
  refine ⟨rfl, h0, h1, ?_⟩
  cases hr : spot.rating <;> cases hb : spot.budget_level <;>
    simp [scoreSpot, hpa, hbr, hst, hhg, hr, hb]

/-- Witness for `scoreSpot_no_signal` at a concrete input. -/
theorem scoreSpot_no_signal_witness :
    (0 : ℚ) ≤ 0 ∧ (0 : ℚ) < 1
    ∧ emptyPreferences.preferredActivities = none
    ∧ emptyPreferences.budgetRange = none
    ∧ emptyPreferences.sceneryType = none
    ∧ emptyPreferences.hiddenGems = false
    ∧ (scoreSpot none 0 sampleSpot = 0
      ∧ 0 ≤ scoreSpot none 0 sampleSpot ∧ scoreSpot none 0 sampleSpot < 1
      ∧ scoreSpot (some emptyPreferences) 0 sampleSpot
          = (match sampleSpot.rating with
             | some rating => if rating ≠ 0 then rating / 2 else 0
             | none => 0)) :=
  ⟨le_refl 0, by norm_num, rfl, rfl, rfl, rfl,
    scoreSpot_no_signal sampleSpot 0 emptyPreferences (le_refl 0) (by norm_num)
      rfl rfl rfl rfl⟩

theorem scoreLE_trans (a b c : TouristSpot × ℚ)
    (hab : decide (b.2 ≤ a.2) = true) (hbc : decide (c.2 ≤ b.2) = true) :
    decide (c.2 ≤ a.2) = true := by
  simp only [decide_eq_true_eq] at hab hbc ⊢
  exact le_trans hbc hab

theorem scoreLE_total (a b : TouristSpot × ℚ) :
    (decide (b.2 ≤ a.2) || decide (a.2 ≤ b.2)) = true := by
  simpa [Bool.or_eq_true, decide_eq_true_eq] using le_total b.2 a.2

/-- Claim C3: for every candidate pool, the auto-selector returns `min 8 n`
identifiers (hence at most that many), each belonging to a spot of the
input pool; the selected pairs are the prefix of the score-sorted list,
which is in descending score order, every taken entry scoring at least
every dropped entry; and the sort is stable: any two equal-scored entries
of the scored pool keep their relative input order. -/
theorem handleAutoSelect_topK (userPreferences : Option UserPreferences)
    (randOracle : Nat → ℚ) (spots : List TouristSpot) :
    (handleAutoSelect userPreferences randOracle spots).length
        = min 8 spots.length
    ∧ (∀ i ∈ handleAutoSelect userPreferences randOracle spots,
        ∃ s ∈ spots, s.id = i)
    ∧ (sortedScoredList userPreferences randOracle spots).Pairwise
        (fun a b => b.2 ≤ a.2)
    ∧ (∀ x ∈ (sortedScoredList userPreferences randOracle spots).take 8,
        ∀ y ∈ (sortedScoredList userPreferences randOracle spots).drop 8,
          y.2 ≤ x.2)
    ∧ (∀ p q : TouristSpot × ℚ,
        [p, q].Sublist (scoredList userPreferences randOracle spots)
        → p.2 = q.2
        → [p, q].Sublist (sortedScoredList userPreferences randOracle spots)) := by
  have hsorted :
      (sortedScoredList userPreferences randOracle spots).Pairwise
        (fun a b => b.2 ≤ a.2) := by
    have h := List.sorted_mergeSort scoreLE_trans scoreLE_total
      (scoredList userPreferences randOracle spots)
    exact h.imp (fun hab => by simpa using hab)
  refine ⟨?_, ?_, hsorted, ?_, ?_⟩
  · rw [handleAutoSelect, List.length_map, List.length_take, sortedScoredList,
      List.length_mergeSort, scoredList, List.length_map]
    simp [List.enum, List.enumFrom_length]
  · intro i hi
    obtain ⟨item, hitem, rfl⟩ := List.mem_map.mp hi
    have h1 : item ∈ sortedScoredList userPreferences randOracle spots :=
      List.take_subset 8 _ hitem
    have h2 : item ∈ scoredList userPreferences randOracle spots := by
      rw [sortedScoredList] at h1
      exact List.mem_mergeSort.mp h1
    obtain ⟨pr, hpr, rfl⟩ := List.mem_map.mp h2
    have h3 : pr.2 ∈ spots :=
      List.getElem?_mem (List.mem_enum_iff_getElem?.mp hpr)
    exact ⟨pr.2, h3, rfl⟩
  · intro x hx y hy
    have hsplit := hsorted
    rw [← List.take_append_drop 8
      (sortedScoredList userPreferences randOracle spots)] at hsplit
    exact (List.pairwise_append.mp hsplit).2.2 x hx y hy
  · intro p q hpq heq
    exact List.pair_sublist_mergeSort scoreLE_trans scoreLE_total
      (by simpa using le_of_eq heq.symm) hpq

/-- A concrete spot used in the auto-select witness pool. -/
def spotA : TouristSpot := { sampleSpot with id := "spot-a" }

/-- A second concrete spot used in the auto-select witness pool. -/
def spotB : TouristSpot := { sampleSpot with id := "spot-b" }

/-- Witness for `handleAutoSelect_topK` at a concrete input: a pool of two
spots whose scores tie (absent preferences, random fallback fixed at 0);
the stability clause is discharged at that tie pair. -/
theorem handleAutoSelect_topK_witness :
    ((handleAutoSelect none (fun _ => 0) [spotA, spotB]).length
        = min 8 [spotA, spotB].length
      ∧ (∀ i ∈ handleAutoSelect none (fun _ => 0) [spotA, spotB],
          ∃ s ∈ [spotA, spotB], s.id = i)
      ∧ (sortedScoredList none (fun _ => 0) [spotA, spotB]).Pairwise
          (fun a b => b.2 ≤ a.2)
      ∧ (∀ x ∈ (sortedScoredList none (fun _ => 0) [spotA, spotB]).take 8,
          ∀ y ∈ (sortedScoredList none (fun _ => 0) [spotA, spotB]).drop 8,
            y.2 ≤ x.2))
    ∧ [(spotA, (0 : ℚ)), (spotB, 0)].Sublist
        (scoredList none (fun _ => 0) [spotA, spotB])
    ∧ (spotA, (0 : ℚ)).2 = (spotB, (0 : ℚ)).2
    ∧ [(spotA, (0 : ℚ)), (spotB, 0)].Sublist
        (sortedScoredList none (fun _ => 0) [spotA, spotB]) :=
  ⟨⟨(handleAutoSelect_topK none (fun _ => 0) [spotA, spotB]).1,
    (handleAutoSelect_topK none (fun _ => 0) [spotA, spotB]).2.1,
    (handleAutoSelect_topK none (fun _ => 0) [spotA, spotB]).2.2.1,
    (handleAutoSelect_topK none (fun _ => 0) [spotA, spotB]).2.2.2.1⟩,
    List.Sublist.refl _, rfl,
    (handleAutoSelect_topK none (fun _ => 0) [spotA, spotB]).2.2.2.2
      (spotA, 0) (spotB, 0) (List.Sublist.refl _) rfl⟩

/-- Claim C4: whenever the create handler issues an insert, the persisted
`selected_categories` list is duplicate-free and contains a category tag
exactly when some spot of the persisted spot list carries it — the
set-union of categories of exactly the included spots. -/
theorem createItinerary_categories (userId : String)
    (spots : List TouristSpot) (st : ModalState) (insertErrored : Bool)
    (row : ItineraryRow)
    (hrow : ((handleCreateItinerary userId spots st insertErrored).1).insertedRow
        = some row) :
    row.selected_categories.Nodup
    ∧ ∀ c, c ∈ row.selected_categories ↔ ∃ s ∈ row.spots, c ∈ s.category := by
  simp only [handleCreateItinerary] at hrow
  split at hrow
  · simp [CreateOutcome.insertedRow] at hrow
  · split at hrow
    · simp [CreateOutcome.insertedRow] at hrow
    · split at hrow <;>
      · simp only [CreateOutcome.insertedRow, Option.some.injEq] at hrow
        subst hrow
        refine ⟨nodup_dedupKeepFirst _, fun c => ?_⟩
        simp [mem_dedupKeepFirst, List.mem_flatMap]

/-- A spot with categories Nature and Hiking, selected in the C4 witness. -/
def spotNature : TouristSpot :=
  { sampleSpot with id := "s1", category := ["Nature", "Hiking"] }

/-- A spot with categories Hiking and Food, selected in the C4 witness. -/
def spotFood : TouristSpot :=
  { sampleSpot with id := "s2", category := ["Hiking", "Food"] }

/-- The row the C4 witness expects to be inserted: both spots and the
derived category list [Nature, Hiking, Food]. -/
def rowNatureFood : ItineraryRow :=
  { user_id := "u", name := "Trip", spots := [spotNature, spotFood],
    selected_categories := ["Nature", "Hiking", "Food"] }

/-- Witness for `createItinerary_categories`: the spec's own example —
spots with categories [Nature, Hiking] and [Hiking, Food] persist the
derived category list [Nature, Hiking, Food]. -/
theorem createItinerary_categories_witness :
    ((handleCreateItinerary "u" [spotNature, spotFood]
        ⟨"Trip", {"s1", "s2"}⟩ false).1).insertedRow = some rowNatureFood
    ∧ (rowNatureFood.selected_categories.Nodup
      ∧ ∀ c, c ∈ rowNatureFood.selected_categories
          ↔ ∃ s ∈ rowNatureFood.spots, c ∈ s.category) :=
  ⟨by decide,
    createItinerary_categories "u" [spotNature, spotFood]
      ⟨"Trip", {"s1", "s2"}⟩ false _ (by decide)⟩

/-- Claim C5: whenever the itinerary name trims to empty or the selection
set is empty, the handler stops with only a notification — no insert is
issued and the state is unchanged. -/
theorem createItinerary_rejected (userId : String)
    (spots : List TouristSpot) (st : ModalState) (insertErrored : Bool)
    (h : jsTrim st.itineraryName = "" ∨ st.selectedSpots = ∅) :
    ∃ msg, handleCreateItinerary userId spots st insertErrored
        = (.noInsert msg, st)
      ∧ (msg = "Please enter an itinerary name"
        ∨ msg = "Please select at least one spot") := by
  by_cases hname : jsTrim st.itineraryName = ""
  · exact ⟨"Please enter an itinerary name",
      by simp [handleCreateItinerary, hname], Or.inl rfl⟩
  · have hsel : st.selectedSpots = ∅ := h.resolve_left hname
    exact ⟨"Please select at least one spot",
      by simp [handleCreateItinerary, hname, hsel], Or.inr rfl⟩

/-- Witness for `createItinerary_rejected`: a whitespace-only name. -/
theorem createItinerary_rejected_witness :
    (jsTrim ("   " : String) = "" ∨ ({"s1"} : Finset String) = ∅)
    ∧ ∃ msg, handleCreateItinerary "u" [] ⟨"   ", {"s1"}⟩ false
        = (.noInsert msg, ⟨"   ", {"s1"}⟩)
      ∧ (msg = "Please enter an itinerary name"
        ∨ msg = "Please select at least one spot") :=
  ⟨Or.inl (by decide),
    createItinerary_rejected "u" [] ⟨"   ", {"s1"}⟩ false (Or.inl (by decide))⟩

/-- Claim C6: on a valid submission, a failed insert leaves the component
state (name and selection set) unchanged so the user may retry, while a
successful insert resets the name and clears the selection. -/
theorem createItinerary_state (userId : String) (spots : List TouristSpot)
    (st : ModalState)
    (hname : jsTrim st.itineraryName ≠ "") (hsel : st.selectedSpots.card ≠ 0) :
    (handleCreateItinerary userId spots st true).2 = st
    ∧ (∃ row, (handleCreateItinerary userId spots st true).1
        = .insertFailed row)
    ∧ (handleCreateItinerary userId spots st false).2
        = { itineraryName := "", selectedSpots := ∅ }
    ∧ (∃ row, (handleCreateItinerary userId spots st false).1
        = .insertSucceeded row) := by
  refine ⟨?_, ?_, ?_, ?_⟩ <;>
    simp [handleCreateItinerary, hname, hsel]

/-- Witness for `createItinerary_state` at a concrete valid submission. -/
theorem createItinerary_state_witness :
    jsTrim ("Trip" : String) ≠ ""
    ∧ ({"s1"} : Finset String).card ≠ 0
    ∧ ((handleCreateItinerary "u" [] ⟨"Trip", {"s1"}⟩ true).2 = ⟨"Trip", {"s1"}⟩
      ∧ (∃ row, (handleCreateItinerary "u" [] ⟨"Trip", {"s1"}⟩ true).1
          = .insertFailed row)
      ∧ (handleCreateItinerary "u" [] ⟨"Trip", {"s1"}⟩ false).2
          = { itineraryName := "", selectedSpots := ∅ }
      ∧ (∃ row, (handleCreateItinerary "u" [] ⟨"Trip", {"s1"}⟩ false).1
          = .insertSucceeded row)) :=
  ⟨by decide, by decide,
    createItinerary_state "u" [] ⟨"Trip", {"s1"}⟩ (by decide) (by decide)⟩

/-- Claim C10: on a valid submission, the persisted spot list is exactly
the fetched spots whose id is in the selection set, in fetched-list order;
selected ids absent from the fetched pool are silently dropped, so a
non-empty selection disjoint from the pool passes validation yet persists
an empty spot list. -/
theorem createItinerary_spots_filter (userId : String)
    (spots : List TouristSpot) (st : ModalState) (insertErrored : Bool)
    (hname : jsTrim st.itineraryName ≠ "") (hsel : st.selectedSpots.card ≠ 0) :
    ∃ row,
      ((handleCreateItinerary userId spots st insertErrored).1).insertedRow
          = some row
      ∧ row.spots = spots.filter (fun spot => spot.id ∈ st.selectedSpots)
      ∧ ((∀ s ∈ spots, s.id ∉ st.selectedSpots) → row.spots = []) := by
  refine ⟨⟨userId, st.itineraryName,
      spots.filter (fun spot => spot.id ∈ st.selectedSpots),
      dedupKeepFirst ((spots.filter
        (fun spot => spot.id ∈ st.selectedSpots)).flatMap
          (fun s => s.category))⟩, ?_, rfl, ?_⟩
  · cases insertErrored <;>
      simp [handleCreateItinerary, hname, hsel, CreateOutcome.insertedRow]
  · intro hmiss
    simp only [List.filter_eq_nil_iff, decide_eq_true_eq]
    exact fun s hs => by simpa using hmiss s hs

/-- Witness for `createItinerary_spots_filter`: the selection `{"zzz"}` is
non-empty but matches no fetched spot, and the insert still goes through
with an empty spot list. -/
theorem createItinerary_spots_filter_witness :
    jsTrim ("Trip" : String) ≠ ""
    ∧ ({"zzz"} : Finset String).card ≠ 0
    ∧ ∃ row,
        ((handleCreateItinerary "u" [sampleSpot] ⟨"Trip", {"zzz"}⟩
            false).1).insertedRow = some row
        ∧ row.spots = [sampleSpot].filter
            (fun spot => spot.id ∈ ({"zzz"} : Finset String))
        ∧ ((∀ s ∈ [sampleSpot], s.id ∉ ({"zzz"} : Finset String))
            → row.spots = []) :=
  ⟨by decide, by decide,
    createItinerary_spots_filter "u" [sampleSpot] ⟨"Trip", {"zzz"}⟩ false
      (by decide) (by decide)⟩

/-- Claim C7: `toggle` is its own inverse — toggling the same identifier
twice restores the set — and a single toggle removes the identifier when
present (leaving other members untouched) and inserts it when absent. -/
theorem toggleSpot_involutive (sel : Finset String) (a x : String)
    (hx : x ≠ a) :
    toggleSpot a (toggleSpot a sel) = sel
    ∧ (a ∈ toggleSpot a sel ↔ a ∉ sel)
    ∧ (x ∈ toggleSpot a sel ↔ x ∈ sel)
    ∧ (a ∈ sel → toggleSpot a sel = sel.erase a)
    ∧ (a ∉ sel → toggleSpot a sel = insert a sel) := by
  by_cases h : a ∈ sel
  · refine ⟨?_, ?_, ?_, fun _ => ?_, fun hna => absurd h hna⟩ <;>
      simp [toggleSpot, h, Finset.insert_erase h, hx]
  · refine ⟨?_, ?_, ?_, fun ha => absurd ha h, fun _ => ?_⟩ <;>
      simp [toggleSpot, h, Finset.erase_insert h, hx]

/-- Witness for `toggleSpot_involutive` at a concrete selection set. -/
theorem toggleSpot_involutive_witness :
    ("b" : String) ≠ "a"
    ∧ (toggleSpot "a" (toggleSpot "a" {"w"}) = {"w"}
      ∧ ("a" ∈ toggleSpot "a" ({"w"} : Finset String) ↔ "a" ∉ ({"w"} : Finset String))
      ∧ ("b" ∈ toggleSpot "a" ({"w"} : Finset String) ↔ "b" ∈ ({"w"} : Finset String))
      ∧ ("a" ∈ ({"w"} : Finset String)
          → toggleSpot "a" {"w"} = ({"w"} : Finset String).erase "a")
      ∧ ("a" ∉ ({"w"} : Finset String)
          → toggleSpot "a" {"w"} = insert "a" {"w"})) :=
  ⟨by decide, toggleSpot_involutive {"w"} "a" "b" (by decide)⟩

theorem emailHtml_contains_link (l t : String) :
    containsSubstr (emailHtml l t) l = true := by
  have h := charsHaveSub_of_append emailHtmlPart1.data l.data
    (emailHtmlPart2.data ++ (t.data ++ emailHtmlPart3.data))
  simpa [containsSubstr, emailHtml, List.append_assoc] using h

theorem emailHtml_contains_token (l t : String) :
    containsSubstr (emailHtml l t) t = true := by
  have h := charsHaveSub_of_append
    (emailHtmlPart1.data ++ (l.data ++ emailHtmlPart2.data)) t.data
    emailHtmlPart3.data
  simpa [containsSubstr, emailHtml, List.append_assoc] using h

/-- Claim C8: with the webhook secret set, a signature-verification
failure is logged but does not abort processing — the HTTP response and
the email-send call are identical to those of the same request with a
valid signature. -/
theorem handler_signature_nonfatal (secret url : String)
    (req : EmailRequest) (sendResult : SendOutcome)
    (hm : req.method ≠ "OPTIONS") (hv : req.signatureValid = false) :
    (handler (some secret) url req sendResult).response
        = (handler (some secret) url { req with signatureValid := true }
            sendResult).response
    ∧ (handler (some secret) url req sendResult).sent
        = (handler (some secret) url { req with signatureValid := true }
            sendResult).sent
    ∧ "Webhook verification failed:"
        ∈ (handler (some secret) url req sendResult).logs := by
  rcases hpl : req.payload with p | msg <;> cases sendResult <;>
    simp [handler, hm, hv, hpl]

/-- Witness for `handler_signature_nonfatal` at a concrete request. -/
theorem handler_signature_nonfatal_witness :
    (EmailRequest.method ⟨"POST", false,
        .parsed ⟨"a@b.c", "123456", "hash", "https://app", "signup"⟩⟩
      ≠ "OPTIONS")
    ∧ (EmailRequest.signatureValid ⟨"POST", false,
        .parsed ⟨"a@b.c", "123456", "hash", "https://app", "signup"⟩⟩ = false)
    ∧ ((handler (some "sec") "https://x"
          ⟨"POST", false,
            .parsed ⟨"a@b.c", "123456", "hash", "https://app", "signup"⟩⟩
          (.ok "{}")).response
        = (handler (some "sec") "https://x"
            ⟨"POST", true,
              .parsed ⟨"a@b.c", "123456", "hash", "https://app", "signup"⟩⟩
            (.ok "{}")).response
      ∧ (handler (some "sec") "https://x"
          ⟨"POST", false,
            .parsed ⟨"a@b.c", "123456", "hash", "https://app", "signup"⟩⟩
          (.ok "{}")).sent
        = (handler (some "sec") "https://x"
            ⟨"POST", true,
              .parsed ⟨"a@b.c", "123456", "hash", "https://app", "signup"⟩⟩
            (.ok "{}")).sent
      ∧ "Webhook verification failed:"
          ∈ (handler (some "sec") "https://x"
              ⟨"POST", false,
                .parsed ⟨"a@b.c", "123456", "hash", "https://app", "signup"⟩⟩
              (.ok "{}")).logs) :=
  ⟨by decide, rfl,
    handler_signature_nonfatal "sec" "https://x"
      ⟨"POST", false,
        .parsed ⟨"a@b.c", "123456", "hash", "https://app", "signup"⟩⟩
      (.ok "{}") (by decide) rfl⟩

/-- The message the handler passes to `resend.emails.send` for payload
`p` (index.ts lines 110-115). -/
def sentMessage (url : String) (p : EmailPayload) : EmailMessage :=
  { fromAddr := "Wanderer <onboarding@resend.dev>"
    toAddrs := [p.email]
    subject := "Verify your Wanderer account"
    html := emailHtml (verificationLink url p) p.token }

/-- Claim C9: for every well-formed request the rendered HTML embeds the
verification link `{baseUrl}/auth/v1/verify?token={token_hash}&type={action}&redirect_to={redirect}`
and the human-enterable code, addressed to the payload's email; the
response carries the provider's send-result JSON with status 200 on
success and `{error: message}` with status 500 on failure; an OPTIONS
pre-flight receives the permissive CORS headers. -/
theorem handler_email_contract (hookSecret : Option String) (url : String)
    (req : EmailRequest) (p : EmailPayload) (j m : String)
    (hm : req.method ≠ "OPTIONS") (hp : req.payload = .parsed p) :
    (∀ sr : SendOutcome, ∃ msg : EmailMessage,
        (handler hookSecret url req sr).sent = some msg
      ∧ containsSubstr msg.html (verificationLink url p) = true
      ∧ containsSubstr msg.html p.token = true
      ∧ msg.toAddrs = [p.email]
      ∧ msg.subject = "Verify your Wanderer account")
    ∧ (handler hookSecret url req (.ok j)).response
        = { status := 200, headers := jsonCorsHeaders, body := .providerJson j }
    ∧ (handler hookSecret url req (.thrown m)).response
        = { status := 500, headers := jsonCorsHeaders, body := .errorJson m }
    ∧ (handler hookSecret url { req with method := "OPTIONS" }
        (.ok j)).response
        = { status := 200, headers := corsHeaders, body := .empty } := by
  refine ⟨fun sr => ?_, ?_, ?_, ?_⟩
  · cases sr <;>
    · refine ⟨sentMessage url p, ?_, emailHtml_contains_link _ _,
        emailHtml_contains_token _ _, rfl, rfl⟩
      simp [handler, hm, hp, sentMessage]
  · simp [handler, hm, hp]
  · simp [handler, hm, hp]
  · simp [handler]

/-- Witness for `handler_email_contract` at a concrete request. -/
theorem handler_email_contract_witness :
    (EmailRequest.method ⟨"POST", true,
        .parsed ⟨"user@example.com", "424242", "tokhash", "https://app", "signup"⟩⟩
      ≠ "OPTIONS")
    ∧ (EmailRequest.payload ⟨"POST", true,
        .parsed ⟨"user@example.com", "424242", "tokhash", "https://app", "signup"⟩⟩
      = .parsed ⟨"user@example.com", "424242", "tokhash", "https://app", "signup"⟩)
    ∧ ((∀ sr : SendOutcome, ∃ msg : EmailMessage,
          (handler none "https://proj.supabase.co"
            ⟨"POST", true,
              .parsed ⟨"user@example.com", "424242", "tokhash", "https://app",
                "signup"⟩⟩ sr).sent = some msg
        ∧ containsSubstr msg.html (verificationLink "https://proj.supabase.co"
            ⟨"user@example.com", "424242", "tokhash", "https://app", "signup"⟩)
            = true
        ∧ containsSubstr msg.html "424242" = true
        ∧ msg.toAddrs = ["user@example.com"]
        ∧ msg.subject = "Verify your Wanderer account")
      ∧ (handler none "https://proj.supabase.co"
          ⟨"POST", true,
            .parsed ⟨"user@example.com", "424242", "tokhash", "https://app",
              "signup"⟩⟩ (.ok "{}")).response
          = { status := 200, headers := jsonCorsHeaders,
              body := .providerJson "{}" }
      ∧ (handler none "https://proj.supabase.co"
          ⟨"POST", true,
            .parsed ⟨"user@example.com", "424242", "tokhash", "https://app",
              "signup"⟩⟩ (.thrown "boom")).response
          = { status := 500, headers := jsonCorsHeaders,
              body := .errorJson "boom" }
      ∧ (handler none "https://proj.supabase.co"
          ⟨"OPTIONS", true,
            .parsed ⟨"user@example.com", "424242", "tokhash", "https://app",
              "signup"⟩⟩ (.ok "{}")).response
          = { status := 200, headers := corsHeaders, body := .empty }) :=
  ⟨by decide, rfl,
    handler_email_contract none "https://proj.supabase.co"
      ⟨"POST", true,
        .parsed ⟨"user@example.com", "424242", "tokhash", "https://app",
          "signup"⟩⟩
      ⟨"user@example.com", "424242", "tokhash", "https://app", "signup"⟩
      "{}" "boom" (by decide) rfl⟩
